import Mathlib

/-!
Shallow embedding of the VeloQuote service-template repository:
`src/lambda_handler.py` (the Job Runner) and `src/service_event_emitter.py`
(the Event Emitter).  External effects (S3 download/upload, the pluggable
transform, file removal, the EventBridge bus, the clock and the environment)
are modelled by a `World` value that fixes each effect's outcome for the
invocation; the handler itself is a pure function from the event and that
world to an `Except` value.  An `Except.error` result models a Python
exception escaping `lambda_handler` uncaught; the side effects the handler
performs are recorded in a trace of `Act`s.
-/

/-- A Python value as it appears in event/metadata dictionaries.
`null` models Python `None`. -/
inductive Value where
  | null
  | str (s : String)
  | nat (n : Nat)
deriving DecidableEq

/-- A Python dictionary, modelled as an association list; a later binding for
a key overrides an earlier one (see `dget`). -/
abbrev Dict := List (String × Value)

/-- Dictionary lookup: the LAST binding of the key wins, matching Python dict
assignment/`**`-merge semantics when the dict is built by appending. -/
def dget (d : Dict) (k : String) : Option Value :=
  d.foldl (fun acc p => if p.1 = k then some p.2 else acc) none

/-- A Python exception as observed by the handler's `except` clauses:
`FileNotFoundError`, `ValueError`, or any other `Exception` subclass
(carrying its class name, used by `type(e).__name__`). -/
inductive Exc where
  | fileNotFound (msg : String)
  | valueError (msg : String)
  | other (name msg : String)
deriving DecidableEq

/-- `str(e)` for a modelled exception. -/
def Exc.message : Exc → String
  | .fileNotFound m => m
  | .valueError m => m
  | .other _ m => m

/-- The invocation event (`event` argument of `lambda_handler`).  A field is
`none` when the corresponding key is absent from the event dictionary.
Claims only concern string-valued fields, so fields are `Option String`;
`stage_config` is an optional dictionary. -/
structure Event where
  invocation_type : Option String := none
  job_id : Option String := none
  input_bucket : Option String := none
  input_key : Option String := none
  output_bucket : Option String := none
  output_key : Option String := none
  reference_date : Option String := none
  customer_tier : Option String := none
  stage_config : Option Dict := none
deriving DecidableEq

/-- The result dictionary returned by `process_file`: a `success` flag and a
`metadata` sub-dictionary (`none` models the `metadata` key being absent, read
through `result.get("metadata", \x7b\x7d)`). -/
structure TransformResult where
  success : Bool
  metadata : Option Dict := none
deriving DecidableEq

/-- Behaviour of one `events_client.put_events` call: success, a response with
a failed entry, a raised `ClientError`, or any other raised exception. -/
inductive BusBehavior where
  | ok
  | failedEntry (code msg : String)
  | clientError (code msg : String)
  | otherExc (msg : String)
deriving DecidableEq

/-- Outcomes of every external effect during one invocation, plus the values
the environment and the clock supply.  `fetch_exc` / `upload_exc` /
`unlink_input_exc` / `unlink_output_exc` are `some e` when that call raises
`e`; `transform_result` is the outcome of `process_file`. -/
structure World where
  fetch_exc : Option Exc := none
  input_size : Nat := 0
  transform_result : Except Exc TransformResult := .ok { success := true }
  upload_exc : Option Exc := none
  output_size : Nat := 0
  unlink_input_exc : Option Exc := none
  unlink_output_exc : Option Exc := none
  event_bus_name : Option String := none
  bus : BusBehavior := .ok
  now : String := ""
  elapsed_ms : Nat := 0
  service_id : String := "your-service-v1"
  service_version : String := "1.0.0"

/-- The response dictionary `lambda_handler` returns.  A field is `none` when
the corresponding key is absent from the returned dictionary (note: the two
ValidationError responses carry no `metadata` key at all). -/
structure Response where
  status : String
  output_bucket : Option String := none
  output_key : Option String := none
  error : Option String := none
  error_type : Option String := none
  metadata : Option Dict := none
deriving DecidableEq

/-- The side effects the handler performs, in order: S3 download, S3 upload,
scratch-file removal attempts (`ok := false` when `unlink` raised), emitter
construction, and the three emitter notification calls together with the log
lines the emitter produced. -/
inductive Act where
  | fetch (bucket key dest : String)
  | publish (src bucket key : String)
  | unlinkTry (path : String) (ok : Bool)
  | emitterConstructed (job_id : String) (stage_id : Option Value)
  | progressEvent (message : String) (logs : List String)
  | successEvent (message : String) (key : String) (md : Dict) (logs : List String)
  | failureEvent (message : String) (etype : String) (logs : List String)
deriving DecidableEq

/-- Python truthiness of an optional string: `None` and `""` are falsy. -/
def truthy : Option String → Bool
  | none => false
  | some s => !(s = "")

/-- `event.get(k)` lifted into a metadata `Value` (`None` becomes `null`). -/
def optStrVal : Option String → Value
  | none => Value.null
  | some s => Value.str s

/-- `Path(s).name`: the final component after the last `/`. -/
def pathName (s : String) : String :=
  (s.splitOn "/").getLastD ""

/-! ## Event Emitter (`src/service_event_emitter.py`) -/

/-- The `ServiceEventEmitter` object: identity fields fixed at construction
plus the `EVENT_BUS_NAME` environment value read in `__init__`. -/
structure ServiceEventEmitter where
  job_id : String
  service_id : String
  stage_id : Option Value := none
  event_bus_name : Option String := none
deriving DecidableEq

/-- The detail payload of one lifecycle event.  `output_key` / `error_type`
are `none` when the corresponding key is not added to the detail dict. -/
structure Detail where
  job_id : String
  service_id : String
  stage_id : Option Value
  status : String
  message : String
  metadata : Option Dict
  timestamp : String
  output_key : Option String := none
  error_type : Option String := none
deriving DecidableEq

/-- The `PutEvents` response: `FailedEntryCount` plus (code, message) pairs. -/
structure PutEventsResponse where
  failedEntryCount : Nat
  entries : List (String × String)
deriving DecidableEq

/-- `events_client.put_events`, under the bus behaviour the world fixes:
it may return a response (possibly with failed entries) or raise. -/
def put_events (b : BusBehavior) : Except Exc PutEventsResponse :=
  match b with
  | .ok => .ok { failedEntryCount := 0, entries := [] }
  | .failedEntry c m => .ok { failedEntryCount := 1, entries := [(c, m)] }
  | .clientError c m => .error (.other "ClientError" (c ++ " - " ++ m))
  | .otherExc m => .error (.other "Exception" m)

/-- `ServiceEventEmitter._emit_event`: skip when no bus is configured
(Python truthiness), otherwise publish and absorb every failure, returning
the log lines printed.  An `Except.error` result would model an exception
escaping `_emit_event`. -/
def _emit_event (event_bus_name : Option String) (b : BusBehavior)
    (event_type : String) (detail : Detail) : Except Exc (List String) :=
  if truthy event_bus_name = false then
    .ok ["Warning: EVENT_BUS_NAME not set, skipping event emission: " ++ event_type]
  else
    match put_events b with
    | .ok resp =>
      if resp.failedEntryCount > 0 then
        .ok ["Warning: Failed to emit event: "
              ++ ((resp.entries.headD ("Unknown", "Unknown error")).1 ++ " - "
                  ++ (resp.entries.headD ("Unknown", "Unknown error")).2)]
      else
        .ok ["Emitted event: " ++ event_type ++ " - " ++ detail.message]
    | .error e =>
      match e with
      | .other n m =>
        if n = "ClientError" then
          .ok ["Warning: Failed to emit event to EventBridge: " ++ m]
        else
          .ok ["Warning: Unexpected error emitting event: " ++ m]
      | e2 => .ok ["Warning: Unexpected error emitting event: " ++ e2.message]

/-- `emit_progress`: a `service.progress` event with status `in_progress`. -/
def ServiceEventEmitter.emit_progress (em : ServiceEventEmitter) (b : BusBehavior)
    (now message : String) (metadata : Option Dict) : Except Exc (List String) :=
  _emit_event em.event_bus_name b "service.progress"
    { job_id := em.job_id, service_id := em.service_id, stage_id := em.stage_id,
      status := "in_progress", message := message, metadata := metadata,
      timestamp := now ++ "Z" }

/-- `emit_success`: a `service.completed` event with status `success`; the
`output_key` key is added only when the argument is truthy. -/
def ServiceEventEmitter.emit_success (em : ServiceEventEmitter) (b : BusBehavior)
    (now message : String) (output_key : Option String) (metadata : Option Dict) :
    Except Exc (List String) :=
  _emit_event em.event_bus_name b "service.completed"
    { job_id := em.job_id, service_id := em.service_id, stage_id := em.stage_id,
      status := "success", message := message, metadata := metadata,
      timestamp := now ++ "Z",
      output_key := if truthy output_key then output_key else none }

/-- `emit_error`: a `service.failed` event with status `error`; the
`error_type` key is added only when the argument is truthy. -/
def ServiceEventEmitter.emit_error (em : ServiceEventEmitter) (b : BusBehavior)
    (now message : String) (error_type : Option String) (metadata : Option Dict) :
    Except Exc (List String) :=
  _emit_event em.event_bus_name b "service.failed"
    { job_id := em.job_id, service_id := em.service_id, stage_id := em.stage_id,
      status := "error", message := message, metadata := metadata,
      timestamp := now ++ "Z",
      error_type := if truthy error_type then error_type else none }

/-! ## Job Runner (`src/lambda_handler.py`) -/

/-- `str(KeyError(k))` quotes the key: `'k'`. -/
def keyErrorStr (k : String) : String :=
  "\x27" ++ k ++ "\x27"

/-- The ValidationError response for a missing required field (lines 88-93);
note it carries no `metadata` key. -/
def missingFieldResponse (k : String) : Response :=
  { status := "error",
    error := some ("Missing required field: " ++ keyErrorStr k),
    error_type := some "ValidationError" }

/-- The body of the `try` block from step 3 onward (after the required fields
were extracted).  `Except.error (e, em, tr)` models the exception `e` reaching
the top-level `except` clauses with the emitter `em` in scope and the actions
`tr` already performed. -/
def runBody (w : World) (event : Event)
    (job_id input_bucket input_key output_bucket : String) :
    Except (Exc × ServiceEventEmitter × List Act) (Response × List Act) :=
  let reference_date := event.reference_date
  let customer_tier := event.customer_tier.getD "standard"
  let stage_config := event.stage_config.getD []
  let output_key :=
    match event.output_key with
    | some k => if k = "" then "jobs/" ++ job_id ++ "/output.xlsx" else k
    | none => "jobs/" ++ job_id ++ "/output.xlsx"
  let emitter : ServiceEventEmitter :=
    { job_id := job_id, service_id := w.service_id,
      stage_id := dget stage_config "stage_id",
      event_bus_name := w.event_bus_name }
  let tr0 := [Act.emitterConstructed job_id (dget stage_config "stage_id")]
  match emitter.emit_progress w.bus w.now "Starting processing..." none with
  | .error e => .error (e, emitter, tr0)
  | .ok logs1 =>
  let tr1 := tr0 ++ [Act.progressEvent "Starting processing..." logs1]
  match emitter.emit_progress w.bus w.now "Downloading input file from S3..." none with
  | .error e => .error (e, emitter, tr1)
  | .ok logs2 =>
  let tr2 := tr1 ++ [Act.progressEvent "Downloading input file from S3..." logs2]
  let input_filename := pathName input_key
  let local_input_path := "/tmp/input_" ++ job_id ++ "_" ++ input_filename
  let tr3 := tr2 ++ [Act.fetch input_bucket input_key local_input_path]
  match w.fetch_exc with
  | some e => .error (e, emitter, tr3)
  | none =>
  let file_size_bytes := w.input_size
  match emitter.emit_progress w.bus w.now "Processing file..." none with
  | .error e => .error (e, emitter, tr3)
  | .ok logs3 =>
  let tr4 := tr3 ++ [Act.progressEvent "Processing file..." logs3]
  let local_output_path := "/tmp/output_" ++ job_id ++ ".xlsx"
  match w.transform_result with
  | .error e => .error (e, emitter, tr4)
  | .ok result =>
  match emitter.emit_progress w.bus w.now "Uploading output to S3..." none with
  | .error e => .error (e, emitter, tr4)
  | .ok logs4 =>
  let tr5 := tr4 ++ [Act.progressEvent "Uploading output to S3..." logs4]
  let tr6 := tr5 ++ [Act.publish local_output_path output_bucket output_key]
  match w.upload_exc with
  | some e => .error (e, emitter, tr6)
  | none =>
  let output_file_size := w.output_size
  let tr7 :=
    match w.unlink_input_exc with
    | some _ => tr6 ++ [Act.unlinkTry local_input_path false]
    | none =>
      match w.unlink_output_exc with
      | some _ => tr6 ++ [Act.unlinkTry local_input_path true,
                          Act.unlinkTry local_output_path false]
      | none => tr6 ++ [Act.unlinkTry local_input_path true,
                        Act.unlinkTry local_output_path true]
  let total_time_ms := w.elapsed_ms
  let metadata :=
    [("processing_time_ms", Value.nat total_time_ms),
     ("input_file_size_bytes", Value.nat file_size_bytes),
     ("output_file_size_bytes", Value.nat output_file_size),
     ("customer_tier", Value.str customer_tier),
     ("service_version", Value.str w.service_version)]
    ++ result.metadata.getD []
  let metadata :=
    match reference_date with
    | some rd =>
      if rd = "" then metadata else metadata ++ [("reference_date", Value.str rd)]
    | none => metadata
  match emitter.emit_success w.bus w.now "Processing completed successfully"
      (some output_key) (some metadata) with
  | .error e => .error (e, emitter, tr7)
  | .ok logs5 =>
  let tr8 := tr7 ++ [Act.successEvent "Processing completed successfully"
                      output_key metadata logs5]
  .ok ({ status := "success",
         output_bucket := some output_bucket,
         output_key := some output_key,
         metadata := some metadata }, tr8)

/-- The top-level `except` clauses (lines 208-254).  On every path reaching
them the emitter is in `locals()`, so `emit_error` is called; if that call
itself raised, the new exception would escape the handler (`.error`). -/
def topLevel (event : Event) (w : World) (em : ServiceEventEmitter)
    (e : Exc) (tr : List Act) : Except Exc (Response × List Act) :=
  match e with
  | .fileNotFound m =>
    let error_msg := "File not found: " ++ m
    match em.emit_error w.bus w.now error_msg (some "FileNotFoundError") none with
    | .error e2 => .error e2
    | .ok logs =>
      .ok ({ status := "error", error := some error_msg,
             error_type := some "FileNotFoundError",
             metadata := some [("job_id", optStrVal event.job_id),
                               ("input_key", optStrVal event.input_key)] },
           tr ++ [Act.failureEvent error_msg "FileNotFoundError" logs])
  | .valueError m =>
    let error_msg := "Invalid value: " ++ m
    match em.emit_error w.bus w.now error_msg (some "ValueError") none with
    | .error e2 => .error e2
    | .ok logs =>
      .ok ({ status := "error", error := some error_msg,
             error_type := some "ValueError",
             metadata := some [("job_id", optStrVal event.job_id)] },
           tr ++ [Act.failureEvent error_msg "ValueError" logs])
  | .other name m =>
    match em.emit_error w.bus w.now m (some name) none with
    | .error e2 => .error e2
    | .ok logs =>
      .ok ({ status := "error", error := some m,
             error_type := some name,
             metadata := some [("job_id", optStrVal event.job_id),
                               ("input_key", optStrVal event.input_key),
                               ("processing_time_ms", Value.nat w.elapsed_ms)] },
           tr ++ [Act.failureEvent m name logs])

/-- `lambda_handler`: validation, then the `try` body, with every exception
reaching the top level mapped through `topLevel`.  An `Except.error` result
models an exception escaping the handler uncaught. -/
def lambda_handler (event : Event) (w : World) :
    Except Exc (Response × List Act) :=
  if event.invocation_type ≠ some "direct" then
    .ok ({ status := "error",
           error := some "Invalid invocation type. Expected \x22direct\x22",
           error_type := some "ValidationError" }, [])
  else
    match event.job_id with
    | none => .ok (missingFieldResponse "job_id", [])
    | some job_id =>
    match event.input_bucket with
    | none => .ok (missingFieldResponse "input_bucket", [])
    | some input_bucket =>
    match event.input_key with
    | none => .ok (missingFieldResponse "input_key", [])
    | some input_key =>
    match event.output_bucket with
    | none => .ok (missingFieldResponse "output_bucket", [])
    | some output_bucket =>
    match runBody w event job_id input_bucket input_key output_bucket with
    | .ok rt => .ok rt
    | .error (e, em, tr) => topLevel event w em e tr

/-- The response of an invocation (total projection; the `.error` branch is
unreachable, as proved for claim C1). -/
def runResp (event : Event) (w : World) : Response :=
  match lambda_handler event w with
  | .ok (r, _) => r
  | .error _ => { status := "" }

/-- The action trace of an invocation (total projection, as `runResp`). -/
def runTrace (event : Event) (w : World) : List Act :=
  match lambda_handler event w with
  | .ok (_, tr) => tr
  | .error _ => []

/-- Number of S3 download calls in a trace. -/
def countFetches (tr : List Act) : Nat :=
  (tr.filter fun a => match a with | .fetch _ _ _ => true | _ => false).length

/-- Number of S3 upload calls in a trace. -/
def countPublishes (tr : List Act) : Nat :=
  (tr.filter fun a => match a with | .publish _ _ _ => true | _ => false).length

/-- Number of scratch-file removal attempts in a trace. -/
def countUnlinks (tr : List Act) : Nat :=
  (tr.filter fun a => match a with | .unlinkTry _ _ => true | _ => false).length

/-- Number of failure notifications (`emit_error` calls) in a trace. -/
def countFailureEvents (tr : List Act) : Nat :=
  (tr.filter fun a => match a with | .failureEvent _ _ _ => true | _ => false).length

/-- The upload calls of a trace, as (source, bucket, key) triples. -/
def publishCalls (tr : List Act) : List (String × String × String) :=
  tr.filterMap fun a => match a with
    | .publish s b k => some (s, b, k)
    | _ => none

/-- Number of emitter notification calls (progress, success or failure) in a trace. -/
def countEmitEvents (tr : List Act) : Nat :=
  (tr.filter fun a => match a with
    | .progressEvent _ _ => true | .successEvent _ _ _ _ => true
    | .failureEvent _ _ _ => true | _ => false).length

/-- Number of Event Emitter constructions in a trace. -/
def countEmitterCons (tr : List Act) : Nat :=
  (tr.filter fun a => match a with | .emitterConstructed _ _ => true | _ => false).length

/-! ## Derived characterizations of the handler's paths -/

/-- The log lines `_emit_event` produces, by bus configuration and behaviour. -/
def emitLogs (event_bus_name : Option String) (b : BusBehavior)
    (event_type message : String) : List String :=
  if truthy event_bus_name = false then
    ["Warning: EVENT_BUS_NAME not set, skipping event emission: " ++ event_type]
  else
    match b with
    | .ok => ["Emitted event: " ++ event_type ++ " - " ++ message]
    | .failedEntry c m => ["Warning: Failed to emit event: " ++ (c ++ " - " ++ m)]
    | .clientError c m => ["Warning: Failed to emit event to EventBridge: " ++ (c ++ " - " ++ m)]
    | .otherExc m => ["Warning: Unexpected error emitting event: " ++ m]

/-- The error message (`error` field) the top-level handlers build for `e`. -/
def errMsgOf : Exc → String
  | .fileNotFound m => "File not found: " ++ m
  | .valueError m => "Invalid value: " ++ m
  | .other _ m => m

/-- The `error_type` tag the top-level handlers use for `e`. -/
def errTypeOf : Exc → String
  | .fileNotFound _ => "FileNotFoundError"
  | .valueError _ => "ValueError"
  | .other n _ => n

/-- The partial-context metadata the top-level handlers attach for `e`. -/
def errMetadataOf (event : Event) (w : World) : Exc → Dict
  | .fileNotFound _ => [("job_id", optStrVal event.job_id),
                        ("input_key", optStrVal event.input_key)]
  | .valueError _ => [("job_id", optStrVal event.job_id)]
  | .other _ _ => [("job_id", optStrVal event.job_id),
                   ("input_key", optStrVal event.input_key),
                   ("processing_time_ms", Value.nat w.elapsed_ms)]

/-- The error-variant response the top-level handlers return for `e`. -/
def errResponseOf (event : Event) (w : World) (e : Exc) : Response :=
  { status := "error", error := some (errMsgOf e), error_type := some (errTypeOf e),
    metadata := some (errMetadataOf event w e) }

/-- The ValidationError response for a wrong/missing `invocation_type`
(lines 75-80); note it carries no `metadata` key. -/
def invalidTypeResponse : Response :=
  { status := "error",
    error := some "Invalid invocation type. Expected \x22direct\x22",
    error_type := some "ValidationError" }

/-- Scratch input path `/tmp/input_{job_id}_{Path(input_key).name}`. -/
def scratchInputPath (job_id input_key : String) : String :=
  "/tmp/input_" ++ job_id ++ "_" ++ pathName input_key

/-- Scratch output path `/tmp/output_{job_id}.xlsx`. -/
def scratchOutputPath (job_id : String) : String :=
  "/tmp/output_" ++ job_id ++ ".xlsx"

/-- The output key the Runner resolves in step 3: the event's `output_key`
when truthy, otherwise the synthesized `jobs/{job_id}/output.xlsx`. -/
def resolvedKey (job_id : String) (ok : Option String) : String :=
  match ok with
  | some k => if k = "" then "jobs/" ++ job_id ++ "/output.xlsx" else k
  | none => "jobs/" ++ job_id ++ "/output.xlsx"

/-- The metadata dictionary assembled in steps 10-11 on the success path. -/
def successMetadata (event : Event) (w : World) (res : TransformResult) : Dict :=
  let base :=
    [("processing_time_ms", Value.nat w.elapsed_ms),
     ("input_file_size_bytes", Value.nat w.input_size),
     ("output_file_size_bytes", Value.nat w.output_size),
     ("customer_tier", Value.str (event.customer_tier.getD "standard")),
     ("service_version", Value.str w.service_version)]
    ++ res.metadata.getD []
  match event.reference_date with
  | some rd => if rd = "" then base else base ++ [("reference_date", Value.str rd)]
  | none => base

/-- The success-variant response of step 13. -/
def successResponse (event : Event) (w : World)
    (job_id output_bucket : String) (res : TransformResult) : Response :=
  { status := "success", output_bucket := some output_bucket,
    output_key := some (resolvedKey job_id event.output_key),
    metadata := some (successMetadata event w res) }

/-- The trace up to and including the fetch call. -/
def preFetchTrace (event : Event) (w : World) (job_id input_bucket input_key : String) :
    List Act :=
  [Act.emitterConstructed job_id (dget (event.stage_config.getD []) "stage_id"),
   Act.progressEvent "Starting processing..."
     (emitLogs w.event_bus_name w.bus "service.progress" "Starting processing..."),
   Act.progressEvent "Downloading input file from S3..."
     (emitLogs w.event_bus_name w.bus "service.progress" "Downloading input file from S3..."),
   Act.fetch input_bucket input_key (scratchInputPath job_id input_key)]

/-- The cleanup attempts of step 9: the output unlink is reached only when the
input unlink did not raise. -/
def cleanupTrace (w : World) (job_id input_key : String) : List Act :=
  match w.unlink_input_exc with
  | some _ => [Act.unlinkTry (scratchInputPath job_id input_key) false]
  | none =>
    match w.unlink_output_exc with
    | some _ => [Act.unlinkTry (scratchInputPath job_id input_key) true,
                 Act.unlinkTry (scratchOutputPath job_id) false]
    | none => [Act.unlinkTry (scratchInputPath job_id input_key) true,
               Act.unlinkTry (scratchOutputPath job_id) true]

/-- The full trace of a successful invocation. -/
def successTrace (event : Event) (w : World)
    (job_id input_bucket input_key output_bucket : String) (res : TransformResult) :
    List Act :=
  preFetchTrace event w job_id input_bucket input_key
  ++ [Act.progressEvent "Processing file..."
        (emitLogs w.event_bus_name w.bus "service.progress" "Processing file..."),
      Act.progressEvent "Uploading output to S3..."
        (emitLogs w.event_bus_name w.bus "service.progress" "Uploading output to S3..."),
      Act.publish (scratchOutputPath job_id) output_bucket
        (resolvedKey job_id event.output_key)]
  ++ cleanupTrace w job_id input_key
  ++ [Act.successEvent "Processing completed successfully"
        (resolvedKey job_id event.output_key) (successMetadata event w res)
        (emitLogs w.event_bus_name w.bus "service.completed"
          "Processing completed successfully")]

/-- The full trace of an invocation whose fetch raised. -/
def fetchFailTrace (event : Event) (w : World) (job_id input_bucket input_key : String)
    (e : Exc) : List Act :=
  preFetchTrace event w job_id input_bucket input_key
  ++ [Act.failureEvent (errMsgOf e) (errTypeOf e)
       (emitLogs w.event_bus_name w.bus "service.failed" (errMsgOf e))]

/-- The full trace of an invocation whose transform raised. -/
def transformFailTrace (event : Event) (w : World) (job_id input_bucket input_key : String)
    (e : Exc) : List Act :=
  preFetchTrace event w job_id input_bucket input_key
  ++ [Act.progressEvent "Processing file..."
        (emitLogs w.event_bus_name w.bus "service.progress" "Processing file..."),
      Act.failureEvent (errMsgOf e) (errTypeOf e)
        (emitLogs w.event_bus_name w.bus "service.failed" (errMsgOf e))]

/-- The full trace of an invocation whose upload raised. -/
def uploadFailTrace (event : Event) (w : World)
    (job_id input_bucket input_key output_bucket : String) (e : Exc) : List Act :=
  preFetchTrace event w job_id input_bucket input_key
  ++ [Act.progressEvent "Processing file..."
        (emitLogs w.event_bus_name w.bus "service.progress" "Processing file..."),
      Act.progressEvent "Uploading output to S3..."
        (emitLogs w.event_bus_name w.bus "service.progress" "Uploading output to S3..."),
      Act.publish (scratchOutputPath job_id) output_bucket
        (resolvedKey job_id event.output_key),
      Act.failureEvent (errMsgOf e) (errTypeOf e)
        (emitLogs w.event_bus_name w.bus "service.failed" (errMsgOf e))]

/-- `f` is one of the four required fields and is absent from the event. -/
def fieldAbsent (event : Event) (f : String) : Prop :=
  (f = "job_id" ∧ event.job_id = none) ∨
  (f = "input_bucket" ∧ event.input_bucket = none) ∨
  (f = "input_key" ∧ event.input_key = none) ∨
  (f = "output_bucket" ∧ event.output_bucket = none)

/-! ## Concrete invocation fixtures -/

/-- A well-formed envelope with an explicit `output_key`. -/
def evStd : Event :=
  { invocation_type := some "direct", job_id := some "j1",
    input_bucket := some "in", input_key := some "a.bin",
    output_bucket := some "out", output_key := some "jobs/j1/out.bin" }

/-- A world in which every external step succeeds. -/
def wStd : World :=
  { input_size := 1024, output_size := 32,
    transform_result := .ok { success := true, metadata := some [("records", Value.nat 5)] },
    event_bus_name := some "bus", bus := .ok, now := "T", elapsed_ms := 7 }

/-- The transform result `wStd` carries. -/
def resStd : TransformResult :=
  { success := true, metadata := some [("records", Value.nat 5)] }

/-- `evStd` with an explicit but EMPTY `output_key`. -/
def evOutEmpty : Event := { evStd with output_key := some "" }

/-- `evStd` with a wrong `invocation_type` (but a `job_id` present). -/
def evBadInv : Event := { evStd with invocation_type := some "async" }

/-- `evStd` with a present but EMPTY `reference_date`. -/
def evRefEmpty : Event := { evStd with reference_date := some "" }

/-- `evStd` with a non-empty `reference_date`. -/
def evRefDate : Event := { evStd with reference_date := some "2025-01-15" }

/-- `evStd` with `input_bucket` absent. -/
def evNoBucket : Event := { evStd with input_bucket := none }

/-- `wStd` but the fetch raises a not-found condition. -/
def wFetchNF : World :=
  { wStd with fetch_exc := some (Exc.fileNotFound "File not found in S3") }

/-- `wStd` but the transform raises a `ValueError`. -/
def wTransformVE : World :=
  { wStd with transform_result := .error (Exc.valueError "bad input") }

/-- `wStd` but the upload raises a `ClientError`. -/
def wUploadFail : World :=
  { wStd with upload_exc := some (Exc.other "ClientError" "upload failed") }

/-- `wStd` but every bus publish raises a `ClientError`. -/
def wBusDown : World :=
  { wStd with bus := BusBehavior.clientError "AccessDenied" "denied" }

/-- `wStd` but removing the scratch input file raises. -/
def wUnlinkFail : World :=
  { wStd with unlink_input_exc := some (Exc.other "OSError" "busy") }

/-- `wStd` but the transform reports `success := False` in its result. -/
def wResFalse : World :=
  { wStd with transform_result := .ok { success := false, metadata := some [] } }

/-- `wStd` but the transform's metadata overrides `customer_tier`. -/
def wTierOverride : World :=
  { wStd with transform_result :=
      Except.ok { success := true, metadata := some [("customer_tier", Value.str "gold")] } }

/-- A sample emitter identity. -/
def emStd : ServiceEventEmitter :=
  { job_id := "j1", service_id := "your-service-v1", event_bus_name := some "bus" }

/-! ## Characterization lemmas -/

theorem emit_event_eq (bus : Option String) (b : BusBehavior) (et : String) (d : Detail) :
    _emit_event bus b et d = .ok (emitLogs bus b et d.message) := by
  cases b <;> simp [_emit_event, put_events, emitLogs] <;> split <;> rfl

theorem emit_progress_eq (em : ServiceEventEmitter) (b : BusBehavior) (now msg : String)
    (md : Option Dict) :
    em.emit_progress b now msg md = .ok (emitLogs em.event_bus_name b "service.progress" msg) :=
  emit_event_eq ..

theorem emit_success_eq (em : ServiceEventEmitter) (b : BusBehavior) (now msg : String)
    (ok : Option String) (md : Option Dict) :
    em.emit_success b now msg ok md = .ok (emitLogs em.event_bus_name b "service.completed" msg) :=
  emit_event_eq ..

theorem emit_error_eq (em : ServiceEventEmitter) (b : BusBehavior) (now msg : String)
    (et : Option String) (md : Option Dict) :
    em.emit_error b now msg et md = .ok (emitLogs em.event_bus_name b "service.failed" msg) :=
  emit_event_eq ..

theorem topLevel_eq (event : Event) (w : World) (em : ServiceEventEmitter)
    (e : Exc) (tr : List Act) :
    topLevel event w em e tr = .ok (errResponseOf event w e,
      tr ++ [Act.failureEvent (errMsgOf e) (errTypeOf e)
              (emitLogs em.event_bus_name w.bus "service.failed" (errMsgOf e))]) := by
  cases e <;> simp [topLevel, emit_error_eq, errResponseOf, errMsgOf, errTypeOf, errMetadataOf]

theorem success_run (event : Event) (w : World)
    (jid ib ik ob : String) (res : TransformResult)
    (hinv : event.invocation_type = some "direct")
    (hj : event.job_id = some jid) (hib : event.input_bucket = some ib)
    (hik : event.input_key = some ik) (hob : event.output_bucket = some ob)
    (hf : w.fetch_exc = none) (ht : w.transform_result = .ok res)
    (hu : w.upload_exc = none) :
    lambda_handler event w =
      .ok (successResponse event w jid ob res, successTrace event w jid ib ik ob res) := by
  simp only [lambda_handler, hinv, hj, hib, hik, hob, runBody,
    emit_progress_eq, emit_success_eq, hf, ht, hu,
    successResponse, successTrace, successMetadata, preFetchTrace, cleanupTrace,
    resolvedKey, scratchInputPath, scratchOutputPath]
  cases hui : w.unlink_input_exc <;> cases huo : w.unlink_output_exc <;>
    simp [hui, huo]

theorem fetchFail_run (event : Event) (w : World)
    (jid ib ik ob : String) (e : Exc)
    (hinv : event.invocation_type = some "direct")
    (hj : event.job_id = some jid) (hib : event.input_bucket = some ib)
    (hik : event.input_key = some ik) (hob : event.output_bucket = some ob)
    (hf : w.fetch_exc = some e) :
    lambda_handler event w =
      .ok (errResponseOf event w e, fetchFailTrace event w jid ib ik e) := by
  simp only [lambda_handler, hinv, hj, hib, hik, hob, runBody,
    emit_progress_eq, hf, topLevel_eq, fetchFailTrace, preFetchTrace,
    scratchInputPath]
  simp

theorem transformFail_run (event : Event) (w : World)
    (jid ib ik ob : String) (e : Exc)
    (hinv : event.invocation_type = some "direct")
    (hj : event.job_id = some jid) (hib : event.input_bucket = some ib)
    (hik : event.input_key = some ik) (hob : event.output_bucket = some ob)
    (hf : w.fetch_exc = none) (ht : w.transform_result = .error e) :
    lambda_handler event w =
      .ok (errResponseOf event w e, transformFailTrace event w jid ib ik e) := by
  simp only [lambda_handler, hinv, hj, hib, hik, hob, runBody,
    emit_progress_eq, hf, ht, topLevel_eq, transformFailTrace, preFetchTrace,
    scratchInputPath]
  simp

theorem uploadFail_run (event : Event) (w : World)
    (jid ib ik ob : String) (res : TransformResult) (e : Exc)
    (hinv : event.invocation_type = some "direct")
    (hj : event.job_id = some jid) (hib : event.input_bucket = some ib)
    (hik : event.input_key = some ik) (hob : event.output_bucket = some ob)
    (hf : w.fetch_exc = none) (ht : w.transform_result = .ok res)
    (hu : w.upload_exc = some e) :
    lambda_handler event w =
      .ok (errResponseOf event w e, uploadFailTrace event w jid ib ik ob e) := by
  simp only [lambda_handler, hinv, hj, hib, hik, hob, runBody,
    emit_progress_eq, hf, ht, hu, topLevel_eq, uploadFailTrace, preFetchTrace,
    scratchInputPath, scratchOutputPath, resolvedKey]
  simp

theorem dget_foldl_init (d : Dict) (k : String) (init : Option Value) :
    d.foldl (fun acc p => if p.1 = k then some p.2 else acc) init =
      match dget d k with | some v => some v | none => init := by
  induction d generalizing init with
  | nil => simp [dget]
  | cons p t ih =>
    simp only [List.foldl_cons, dget] at *
    rw [ih, ih (if p.1 = k then some p.2 else none)]
    cases h : t.foldl (fun acc q => if q.1 = k then some q.2 else acc) none <;>
      by_cases hp : p.1 = k <;> simp [hp, h]

theorem dget_append (a b : Dict) (k : String) :
    dget (a ++ b) k = match dget b k with | some v => some v | none => dget a k := by
  simp only [dget, List.foldl_append]
  rw [dget_foldl_init]
  rfl

theorem runResp_eq (event : Event) (w : World) (r : Response) (tr : List Act)
    (h : lambda_handler event w = .ok (r, tr)) : runResp event w = r := by
  simp [runResp, h]

theorem runTrace_eq (event : Event) (w : World) (r : Response) (tr : List Act)
    (h : lambda_handler event w = .ok (r, tr)) : runTrace event w = tr := by
  simp [runTrace, h]

theorem errResponseOf_status (event : Event) (w : World) (e : Exc) :
    (errResponseOf event w e).status = "error" := rfl

/-! ## Claims -/

/-- C1: for every invocation event and every outcome of the external effects,
`lambda_handler` returns exactly one well-formed response whose status is
either "success" or "error"; no modelled exception raised by fetch, transform,
publish, cleanup or metadata assembly escapes the handler's boundary (the
`Except.error` branch, which would model an escaping exception, is never
taken). -/
theorem c1_total_structured_response (event : Event) (w : World) :
    ∃ r tr, lambda_handler event w = Except.ok (r, tr) ∧
      (r.status = "success" ∨ r.status = "error") := by
  by_cases hinv : event.invocation_type = some "direct"
  · cases hj : event.job_id with
    | none =>
      exact ⟨missingFieldResponse "job_id", [], by simp [lambda_handler, hinv, hj], Or.inr rfl⟩
    | some jid =>
      cases hib : event.input_bucket with
      | none =>
        exact ⟨missingFieldResponse "input_bucket", [],
          by simp [lambda_handler, hinv, hj, hib], Or.inr rfl⟩
      | some ib =>
        cases hik : event.input_key with
        | none =>
          exact ⟨missingFieldResponse "input_key", [],
            by simp [lambda_handler, hinv, hj, hib, hik], Or.inr rfl⟩
        | some ik =>
          cases hob : event.output_bucket with
          | none =>
            exact ⟨missingFieldResponse "output_bucket", [],
              by simp [lambda_handler, hinv, hj, hib, hik, hob], Or.inr rfl⟩
          | some ob =>
            cases hf : w.fetch_exc with
            | some e =>
              exact ⟨_, _, fetchFail_run event w jid ib ik ob e hinv hj hib hik hob hf,
                Or.inr rfl⟩
            | none =>
              cases ht : w.transform_result with
              | error e =>
                exact ⟨_, _, transformFail_run event w jid ib ik ob e hinv hj hib hik hob hf ht,
                  Or.inr rfl⟩
              | ok res =>
                cases hu : w.upload_exc with
                | some e =>
                  exact ⟨_, _,
                    uploadFail_run event w jid ib ik ob res e hinv hj hib hik hob hf ht hu,
                    Or.inr rfl⟩
                | none =>
                  exact ⟨_, _,
                    success_run event w jid ib ik ob res hinv hj hib hik hob hf ht hu,
                    Or.inl rfl⟩
  · exact ⟨invalidTypeResponse, [], by simp [lambda_handler, hinv, invalidTypeResponse],
      Or.inr rfl⟩

/-- C2: any envelope whose `invocation_type` is missing or not "direct", or
that lacks one of the four required fields, is rejected with a ValidationError
response whose message names the offending field or condition, and the handler
performs no fetch, no publish, no event emission and constructs no Event
Emitter (the trace is empty). -/
theorem c2_validation_rejection (event : Event) (w : World)
    (h : event.invocation_type ≠ some "direct" ∨ event.job_id = none ∨
         event.input_bucket = none ∨ event.input_key = none ∨
         event.output_bucket = none) :
    ∃ r, lambda_handler event w = .ok (r, []) ∧
      r.status = "error" ∧ r.error_type = some "ValidationError" ∧
      (∃ msg, r.error = some msg ∧
        ((event.invocation_type ≠ some "direct" ∧
          msg = "Invalid invocation type. Expected \x22direct\x22") ∨
         (∃ f, fieldAbsent event f ∧ msg = "Missing required field: " ++ keyErrorStr f))) ∧
      countFetches (runTrace event w) = 0 ∧ countPublishes (runTrace event w) = 0 ∧
      countEmitEvents (runTrace event w) = 0 ∧ countEmitterCons (runTrace event w) = 0 := by
  by_cases hinv : event.invocation_type = some "direct"
  · cases hj : event.job_id with
    | none =>
      have hrun : lambda_handler event w = .ok (missingFieldResponse "job_id", []) := by
        simp [lambda_handler, hinv, hj]
      refine ⟨_, hrun, rfl, rfl, ⟨_, rfl, Or.inr ⟨"job_id", Or.inl ⟨rfl, hj⟩, rfl⟩⟩, ?_⟩
      simp [runTrace_eq event w _ _ hrun, countFetches, countPublishes,
        countEmitEvents, countEmitterCons]
    | some jid =>
      cases hib : event.input_bucket with
      | none =>
        have hrun : lambda_handler event w = .ok (missingFieldResponse "input_bucket", []) := by
          simp [lambda_handler, hinv, hj, hib]
        refine ⟨_, hrun, rfl, rfl,
          ⟨_, rfl, Or.inr ⟨"input_bucket", Or.inr (Or.inl ⟨rfl, hib⟩), rfl⟩⟩, ?_⟩
        simp [runTrace_eq event w _ _ hrun, countFetches, countPublishes,
          countEmitEvents, countEmitterCons]
      | some ib =>
        cases hik : event.input_key with
        | none =>
          have hrun : lambda_handler event w = .ok (missingFieldResponse "input_key", []) := by
            simp [lambda_handler, hinv, hj, hib, hik]
          refine ⟨_, hrun, rfl, rfl,
            ⟨_, rfl, Or.inr ⟨"input_key", Or.inr (Or.inr (Or.inl ⟨rfl, hik⟩)), rfl⟩⟩, ?_⟩
          simp [runTrace_eq event w _ _ hrun, countFetches, countPublishes,
            countEmitEvents, countEmitterCons]
        | some ik =>
          cases hob : event.output_bucket with
          | none =>
            have hrun : lambda_handler event w = .ok (missingFieldResponse "output_bucket", []) := by
              simp [lambda_handler, hinv, hj, hib, hik, hob]
            refine ⟨_, hrun, rfl, rfl,
              ⟨_, rfl, Or.inr ⟨"output_bucket", Or.inr (Or.inr (Or.inr ⟨rfl, hob⟩)), rfl⟩⟩, ?_⟩
            simp [runTrace_eq event w _ _ hrun, countFetches, countPublishes,
              countEmitEvents, countEmitterCons]
          | some ob =>
            simp [hinv, hj, hib, hik, hob] at h
  · have hrun : lambda_handler event w = .ok (invalidTypeResponse, []) := by
      simp [lambda_handler, hinv, invalidTypeResponse]
    refine ⟨_, hrun, rfl, rfl, ⟨_, rfl, Or.inl ⟨hinv, rfl⟩⟩, ?_⟩
    simp [runTrace_eq event w _ _ hrun, countFetches, countPublishes,
      countEmitEvents, countEmitterCons]

/-- C2 witness: the claim applied to a concrete envelope lacking
`input_bucket`. -/
theorem c2_validation_rejection_witness :
    ∃ r, lambda_handler evNoBucket wStd = .ok (r, []) ∧
      r.status = "error" ∧ r.error_type = some "ValidationError" ∧
      (∃ msg, r.error = some msg ∧
        ((evNoBucket.invocation_type ≠ some "direct" ∧
          msg = "Invalid invocation type. Expected \x22direct\x22") ∨
         (∃ f, fieldAbsent evNoBucket f ∧
           msg = "Missing required field: " ++ keyErrorStr f))) ∧
      countFetches (runTrace evNoBucket wStd) = 0 ∧
      countPublishes (runTrace evNoBucket wStd) = 0 ∧
      countEmitEvents (runTrace evNoBucket wStd) = 0 ∧
      countEmitterCons (runTrace evNoBucket wStd) = 0 :=
  c2_validation_rejection evNoBucket wStd (Or.inr (Or.inr (Or.inl rfl)))

/-- C3: each of `emit_progress`, `emit_success` and `emit_error` returns
normally - never raising to its caller - under every bus condition
(unconfigured bus name, failed entries, a raised `ClientError`, any other
raised exception), and for an otherwise-successful job the handler's returned
status is "success" whatever those emission outcomes were (the world's bus
fields are unconstrained). -/
theorem c3_emission_failures_absorbed (em : ServiceEventEmitter) (b : BusBehavior)
    (now message : String) (okey etype : Option String) (md : Option Dict)
    (event : Event) (w : World) (jid ib ik ob : String) (res : TransformResult)
    (hinv : event.invocation_type = some "direct")
    (hj : event.job_id = some jid) (hib : event.input_bucket = some ib)
    (hik : event.input_key = some ik) (hob : event.output_bucket = some ob)
    (hf : w.fetch_exc = none) (ht : w.transform_result = .ok res)
    (hu : w.upload_exc = none) :
    (∃ logs, em.emit_progress b now message md = .ok logs) ∧
    (∃ logs, em.emit_success b now message okey md = .ok logs) ∧
    (∃ logs, em.emit_error b now message etype md = .ok logs) ∧
    (runResp event w).status = "success" := by
  refine ⟨⟨_, emit_progress_eq ..⟩, ⟨_, emit_success_eq ..⟩, ⟨_, emit_error_eq ..⟩, ?_⟩
  rw [runResp_eq event w _ _ (success_run event w jid ib ik ob res hinv hj hib hik hob hf ht hu)]
  rfl

/-- C3 witness: the claim applied to a concrete emitter under a raising bus
and to a concrete job whose every publish raises a `ClientError`. -/
theorem c3_emission_failures_absorbed_witness :
    (∃ logs, emStd.emit_progress (BusBehavior.clientError "AccessDenied" "denied")
      "T" "msg" none = .ok logs) ∧
    (∃ logs, emStd.emit_success (BusBehavior.clientError "AccessDenied" "denied")
      "T" "msg" (some "k") none = .ok logs) ∧
    (∃ logs, emStd.emit_error (BusBehavior.clientError "AccessDenied" "denied")
      "T" "msg" (some "E") none = .ok logs) ∧
    (runResp evStd wBusDown).status = "success" :=
  c3_emission_failures_absorbed emStd (BusBehavior.clientError "AccessDenied" "denied")
    "T" "msg" (some "k") (some "E") none evStd wBusDown "j1" "in" "a.bin" "out" _
    rfl rfl rfl rfl rfl rfl rfl rfl

/-- C4 counterexample: for the envelope with the explicit but empty
`output_key` the run succeeds, yet neither the response's `output_key` nor the
uploaded key equals the envelope's `output_key` - the Runner synthesized
`jobs/j1/output.xlsx` instead, refuting the claim that the envelope's
`output_key`, whenever given, is the key used. -/
theorem c4_counterexample_empty_output_key :
    evOutEmpty.output_key = some "" ∧
    (runResp evOutEmpty wStd).status = "success" ∧
    (runResp evOutEmpty wStd).output_key = some "jobs/j1/output.xlsx" ∧
    (runResp evOutEmpty wStd).output_key ≠ evOutEmpty.output_key ∧
    publishCalls (runTrace evOutEmpty wStd) =
      [(scratchOutputPath "j1", "out", "jobs/j1/output.xlsx")] := by decide

/-- C4 (amended): on every successful invocation the single resolved key -
the envelope's `output_key` when given NON-EMPTY, otherwise the synthesized
`jobs/{job_id}/output.xlsx` - is both the only key published to and the key
placed in the response; it is not recomputed between upload and response. -/
theorem c4_amended_single_resolved_key (event : Event) (w : World)
    (jid ib ik ob : String) (res : TransformResult)
    (hinv : event.invocation_type = some "direct")
    (hj : event.job_id = some jid) (hib : event.input_bucket = some ib)
    (hik : event.input_key = some ik) (hob : event.output_bucket = some ob)
    (hf : w.fetch_exc = none) (ht : w.transform_result = .ok res)
    (hu : w.upload_exc = none) :
    (runResp event w).output_key = some (resolvedKey jid event.output_key) ∧
    publishCalls (runTrace event w) =
      [(scratchOutputPath jid, ob, resolvedKey jid event.output_key)] ∧
    (∀ k, event.output_key = some k → k ≠ "" → resolvedKey jid event.output_key = k) ∧
    ((event.output_key = none ∨ event.output_key = some "") →
      resolvedKey jid event.output_key = "jobs/" ++ jid ++ "/output.xlsx") := by
  have hrun := success_run event w jid ib ik ob res hinv hj hib hik hob hf ht hu
  rw [runResp_eq event w _ _ hrun, runTrace_eq event w _ _ hrun]
  refine ⟨rfl, ?_, ?_, ?_⟩
  · cases hui : w.unlink_input_exc <;> cases huo : w.unlink_output_exc <;>
      simp [publishCalls, successTrace, preFetchTrace, cleanupTrace, hui, huo]
  · intro k hk hne
    simp [resolvedKey, hk, hne]
  · rintro (hk | hk) <;> simp [resolvedKey, hk]

/-- C4 witness: the amended claim applied to the standard envelope with its
explicit non-empty `output_key` and the all-success world. -/
theorem c4_amended_single_resolved_key_witness :
    (runResp evStd wStd).output_key = some (resolvedKey "j1" evStd.output_key) ∧
    publishCalls (runTrace evStd wStd) =
      [(scratchOutputPath "j1", "out", resolvedKey "j1" evStd.output_key)] ∧
    (∀ k, evStd.output_key = some k → k ≠ "" → resolvedKey "j1" evStd.output_key = k) ∧
    ((evStd.output_key = none ∨ evStd.output_key = some "") →
      resolvedKey "j1" evStd.output_key = "jobs/" ++ "j1" ++ "/output.xlsx") :=
  c4_amended_single_resolved_key evStd wStd "j1" "in" "a.bin" "out" _
    rfl rfl rfl rfl rfl rfl rfl rfl

/-- C5 counterexample: an envelope that carries `job_id = "j1"` but a wrong
`invocation_type` is rejected with an error response that has NO metadata
mapping at all, refuting the claim for the ValidationError class. -/
theorem c5_counterexample_validation_no_metadata :
    evBadInv.job_id = some "j1" ∧
    (runResp evBadInv wStd).status = "error" ∧
    (runResp evBadInv wStd).error_type = some "ValidationError" ∧
    (runResp evBadInv wStd).metadata = none := by decide

/-- C5 (amended): error responses produced by the top-level exception handlers
carry a metadata mapping containing the job id whenever the envelope carries
one; the early ValidationError rejections (the empty-trace paths) carry no
metadata mapping at all. -/
theorem c5_amended_error_metadata (event : Event) (w : World) (jid : String)
    (hstat : (runResp event w).status = "error")
    (hjid : event.job_id = some jid) :
    (runTrace event w = [] ∧ (runResp event w).error_type = some "ValidationError" ∧
      (runResp event w).metadata = none) ∨
    (∃ md, (runResp event w).metadata = some md ∧
      dget md "job_id" = some (Value.str jid)) := by
  by_cases hinv : event.invocation_type = some "direct"
  · cases hib : event.input_bucket with
    | none =>
      have hrun : lambda_handler event w = .ok (missingFieldResponse "input_bucket", []) := by
        simp [lambda_handler, hinv, hjid, hib]
      rw [runResp_eq event w _ _ hrun, runTrace_eq event w _ _ hrun]
      exact Or.inl ⟨rfl, rfl, rfl⟩
    | some ib =>
      cases hik : event.input_key with
      | none =>
        have hrun : lambda_handler event w = .ok (missingFieldResponse "input_key", []) := by
          simp [lambda_handler, hinv, hjid, hib, hik]
        rw [runResp_eq event w _ _ hrun, runTrace_eq event w _ _ hrun]
        exact Or.inl ⟨rfl, rfl, rfl⟩
      | some ik =>
        cases hob : event.output_bucket with
        | none =>
          have hrun : lambda_handler event w = .ok (missingFieldResponse "output_bucket", []) := by
            simp [lambda_handler, hinv, hjid, hib, hik, hob]
          rw [runResp_eq event w _ _ hrun, runTrace_eq event w _ _ hrun]
          exact Or.inl ⟨rfl, rfl, rfl⟩
        | some ob =>
          cases hf : w.fetch_exc with
          | some e =>
            rw [runResp_eq event w _ _
              (fetchFail_run event w jid ib ik ob e hinv hjid hib hik hob hf)]
            exact Or.inr ⟨_, rfl, by
              cases e <;> simp [errResponseOf, errMetadataOf, dget, hjid, optStrVal]⟩
          | none =>
            cases ht : w.transform_result with
            | error e =>
              rw [runResp_eq event w _ _
                (transformFail_run event w jid ib ik ob e hinv hjid hib hik hob hf ht)]
              exact Or.inr ⟨_, rfl, by
                cases e <;> simp [errResponseOf, errMetadataOf, dget, hjid, optStrVal]⟩
            | ok res =>
              cases hu : w.upload_exc with
              | some e =>
                rw [runResp_eq event w _ _
                  (uploadFail_run event w jid ib ik ob res e hinv hjid hib hik hob hf ht hu)]
                exact Or.inr ⟨_, rfl, by
                  cases e <;> simp [errResponseOf, errMetadataOf, dget, hjid, optStrVal]⟩
              | none =>
                rw [runResp_eq event w _ _
                  (success_run event w jid ib ik ob res hinv hjid hib hik hob hf ht hu)] at hstat
                simp [successResponse] at hstat
  · have hrun : lambda_handler event w = .ok (invalidTypeResponse, []) := by
      simp [lambda_handler, hinv, invalidTypeResponse]
    rw [runResp_eq event w _ _ hrun, runTrace_eq event w _ _ hrun]
    exact Or.inl ⟨rfl, rfl, rfl⟩

/-- C5 witness: the amended claim applied to the standard envelope and the
world whose fetch raises a not-found error. -/
theorem c5_amended_error_metadata_witness :
    (runTrace evStd wFetchNF = [] ∧
      (runResp evStd wFetchNF).error_type = some "ValidationError" ∧
      (runResp evStd wFetchNF).metadata = none) ∨
    (∃ md, (runResp evStd wFetchNF).metadata = some md ∧
      dget md "job_id" = some (Value.str "j1")) :=
  c5_amended_error_metadata evStd wFetchNF "j1" (by decide) rfl

/-- C6: a fetch-time not-found condition on a well-formed envelope yields an
error response tagged `FileNotFoundError` whose metadata carries the
envelope's `job_id` and `input_key`, with exactly one failure notification
through the Event Emitter and no upload attempted. -/
theorem c6_fetch_not_found (event : Event) (w : World)
    (jid ib ik ob m : String)
    (hinv : event.invocation_type = some "direct")
    (hj : event.job_id = some jid) (hib : event.input_bucket = some ib)
    (hik : event.input_key = some ik) (hob : event.output_bucket = some ob)
    (hf : w.fetch_exc = some (Exc.fileNotFound m)) :
    (runResp event w).status = "error" ∧
    (runResp event w).error_type = some "FileNotFoundError" ∧
    (∃ md, (runResp event w).metadata = some md ∧
      dget md "job_id" = some (Value.str jid) ∧
      dget md "input_key" = some (Value.str ik)) ∧
    countFailureEvents (runTrace event w) = 1 ∧
    countPublishes (runTrace event w) = 0 := by
  have hrun := fetchFail_run event w jid ib ik ob (Exc.fileNotFound m) hinv hj hib hik hob hf
  rw [runResp_eq event w _ _ hrun, runTrace_eq event w _ _ hrun]
  refine ⟨rfl, rfl, ⟨_, rfl, ?_, ?_⟩, ?_, ?_⟩
  · simp [errResponseOf, errMetadataOf, dget, hj, optStrVal]
  · simp [errResponseOf, errMetadataOf, dget, hik, optStrVal]
  · simp [countFailureEvents, fetchFailTrace, preFetchTrace]
  · simp [countPublishes, fetchFailTrace, preFetchTrace]

/-- C6 witness: the claim applied to the standard envelope and the
not-found-at-fetch world. -/
theorem c6_fetch_not_found_witness :
    (runResp evStd wFetchNF).status = "error" ∧
    (runResp evStd wFetchNF).error_type = some "FileNotFoundError" ∧
    (∃ md, (runResp evStd wFetchNF).metadata = some md ∧
      dget md "job_id" = some (Value.str "j1") ∧
      dget md "input_key" = some (Value.str "a.bin")) ∧
    countFailureEvents (runTrace evStd wFetchNF) = 1 ∧
    countPublishes (runTrace evStd wFetchNF) = 0 :=
  c6_fetch_not_found evStd wFetchNF "j1" "in" "a.bin" "out" "File not found in S3"
    rfl rfl rfl rfl rfl rfl

/-- C7 counterexample: a well-formed envelope whose transform raises reaches
the fetch step (one download, scratch files created), removal would have been
possible (no unlink failure is configured), yet zero removal attempts occur -
cleanup does NOT run regardless of outcome. -/
theorem c7_counterexample_no_cleanup_on_failure :
    countFetches (runTrace evStd wTransformVE) = 1 ∧
    (runResp evStd wTransformVE).status = "error" ∧
    wTransformVE.unlink_input_exc = none ∧
    wTransformVE.unlink_output_exc = none ∧
    countUnlinks (runTrace evStd wTransformVE) = 0 := by decide

/-- C7 (amended): scratch-file removal happens only on the success path -
after a transform-time or upload-time failure no removal is attempted - and on
the success path the input unlink is always attempted, the output unlink
whenever the input unlink did not raise, while a removal failure is absorbed:
the success response is unchanged. -/
theorem c7_amended_cleanup_success_path (event : Event)
    (w w2 w3 : World) (jid ib ik ob : String)
    (res res3 : TransformResult) (e2 e3 : Exc)
    (hinv : event.invocation_type = some "direct")
    (hj : event.job_id = some jid) (hib : event.input_bucket = some ib)
    (hik : event.input_key = some ik) (hob : event.output_bucket = some ob)
    (hf : w.fetch_exc = none) (ht : w.transform_result = .ok res)
    (hu : w.upload_exc = none)
    (hf2 : w2.fetch_exc = none) (ht2 : w2.transform_result = .error e2)
    (hf3 : w3.fetch_exc = none) (ht3 : w3.transform_result = .ok res3)
    (hu3 : w3.upload_exc = some e3) :
    (runResp event w).status = "success" ∧
    runResp event w =
      runResp event { w with unlink_input_exc := none, unlink_output_exc := none } ∧
    countUnlinks (runTrace event w) = (if w.unlink_input_exc.isSome then 1 else 2) ∧
    countUnlinks (runTrace event w2) = 0 ∧ (runResp event w2).status = "error" ∧
    countUnlinks (runTrace event w3) = 0 ∧ (runResp event w3).status = "error" := by
  have hrun := success_run event w jid ib ik ob res hinv hj hib hik hob hf ht hu
  have hrun' := success_run event { w with unlink_input_exc := none, unlink_output_exc := none }
    jid ib ik ob res hinv hj hib hik hob hf ht hu
  have hrun2 := transformFail_run event w2 jid ib ik ob e2 hinv hj hib hik hob hf2 ht2
  have hrun3 := uploadFail_run event w3 jid ib ik ob res3 e3 hinv hj hib hik hob hf3 ht3 hu3
  rw [runResp_eq event w _ _ hrun, runTrace_eq event w _ _ hrun,
    runResp_eq event _ _ _ hrun', runResp_eq event w2 _ _ hrun2,
    runTrace_eq event w2 _ _ hrun2, runResp_eq event w3 _ _ hrun3,
    runTrace_eq event w3 _ _ hrun3]
  refine ⟨rfl, rfl, ?_, ?_, rfl, ?_, rfl⟩
  · cases hui : w.unlink_input_exc <;> cases huo : w.unlink_output_exc <;>
      simp [countUnlinks, successTrace, preFetchTrace, cleanupTrace, hui, huo]
  · simp [countUnlinks, transformFailTrace, preFetchTrace]
  · simp [countUnlinks, uploadFailTrace, preFetchTrace]

/-- C7 witness: the amended claim applied to a success world whose input
unlink raises, a transform-failure world and an upload-failure world. -/
theorem c7_amended_cleanup_success_path_witness :
    (runResp evStd wUnlinkFail).status = "success" ∧
    runResp evStd wUnlinkFail =
      runResp evStd { wUnlinkFail with unlink_input_exc := none, unlink_output_exc := none } ∧
    countUnlinks (runTrace evStd wUnlinkFail) =
      (if wUnlinkFail.unlink_input_exc.isSome then 1 else 2) ∧
    countUnlinks (runTrace evStd wTransformVE) = 0 ∧
    (runResp evStd wTransformVE).status = "error" ∧
    countUnlinks (runTrace evStd wUploadFail) = 0 ∧
    (runResp evStd wUploadFail).status = "error" :=
  c7_amended_cleanup_success_path evStd wUnlinkFail wTransformVE wUploadFail
    "j1" "in" "a.bin" "out" _ _ (Exc.valueError "bad input")
    (Exc.other "ClientError" "upload failed")
    rfl rfl rfl rfl rfl rfl rfl rfl rfl rfl rfl rfl rfl

/-- C8 counterexample: an envelope carrying a present but empty
`reference_date` completes successfully, yet the response metadata has no
`reference_date` key - the claim's "present implies echoed verbatim" fails. -/
theorem c8_counterexample_empty_reference_date :
    evRefEmpty.reference_date = some "" ∧
    (runResp evRefEmpty wStd).status = "success" ∧
    dget ((runResp evRefEmpty wStd).metadata.getD []) "reference_date" = none := by decide

/-- C8 (amended): on a successful invocation a present NON-EMPTY
`reference_date` is echoed verbatim into the response metadata; when it is
absent or empty the Runner adds no `reference_date` key, so none is present
unless the transform's own metadata supplied one. -/
theorem c8_amended_reference_date (event : Event) (w : World)
    (jid ib ik ob : String) (res : TransformResult)
    (hinv : event.invocation_type = some "direct")
    (hj : event.job_id = some jid) (hib : event.input_bucket = some ib)
    (hik : event.input_key = some ik) (hob : event.output_bucket = some ob)
    (hf : w.fetch_exc = none) (ht : w.transform_result = .ok res)
    (hu : w.upload_exc = none) :
    (∀ rd, event.reference_date = some rd → rd ≠ "" →
      ∃ md, (runResp event w).metadata = some md ∧
        dget md "reference_date" = some (Value.str rd)) ∧
    ((event.reference_date = none ∨ event.reference_date = some "") →
      dget (res.metadata.getD []) "reference_date" = none →
      ∃ md, (runResp event w).metadata = some md ∧
        dget md "reference_date" = none) := by
  have hrun := success_run event w jid ib ik ob res hinv hj hib hik hob hf ht hu
  rw [runResp_eq event w _ _ hrun]
  constructor
  · intro rd hrd hne
    refine ⟨_, rfl, ?_⟩
    simp only [successResponse, successMetadata, hrd]
    rw [if_neg hne, dget_append]
    simp [dget]
  · rintro (hrd | hrd) hres
    · refine ⟨_, rfl, ?_⟩
      simp only [successResponse, successMetadata, hrd]
      rw [dget_append, hres]
      simp [dget]
    · refine ⟨_, rfl, ?_⟩
      simp only [successResponse, successMetadata, hrd, if_true]
      rw [dget_append, hres]
      simp [dget]

/-- C8 witness: the amended claim applied to the envelope carrying
`reference_date = "2025-01-15"` and the all-success world. -/
theorem c8_amended_reference_date_witness :
    (∀ rd, evRefDate.reference_date = some rd → rd ≠ "" →
      ∃ md, (runResp evRefDate wStd).metadata = some md ∧
        dget md "reference_date" = some (Value.str rd)) ∧
    ((evRefDate.reference_date = none ∨ evRefDate.reference_date = some "") →
      dget (resStd.metadata.getD []) "reference_date" = none →
      ∃ md, (runResp evRefDate wStd).metadata = some md ∧
        dget md "reference_date" = none) :=
  c8_amended_reference_date evRefDate wStd "j1" "in" "a.bin" "out" resStd
    rfl rfl rfl rfl rfl rfl rfl rfl

/-- C9: the Runner never inspects the transform result's `success` flag - any
normally-returning transform, even one reporting `success := false`, still
leads to exactly one upload and a success response, and flipping the flag
leaves the response unchanged. -/
theorem c9_success_flag_ignored (event : Event) (w : World)
    (jid ib ik ob : String) (res : TransformResult)
    (hinv : event.invocation_type = some "direct")
    (hj : event.job_id = some jid) (hib : event.input_bucket = some ib)
    (hik : event.input_key = some ik) (hob : event.output_bucket = some ob)
    (hf : w.fetch_exc = none) (ht : w.transform_result = .ok res)
    (hu : w.upload_exc = none) :
    (runResp event w).status = "success" ∧
    countPublishes (runTrace event w) = 1 ∧
    runResp event w =
      runResp event { w with transform_result := .ok { res with success := !res.success } } := by
  have hrun := success_run event w jid ib ik ob res hinv hj hib hik hob hf ht hu
  have hrun' := success_run event
    { w with transform_result := .ok { res with success := !res.success } }
    jid ib ik ob { res with success := !res.success } hinv hj hib hik hob hf rfl hu
  rw [runResp_eq event w _ _ hrun, runTrace_eq event w _ _ hrun,
    runResp_eq event _ _ _ hrun']
  refine ⟨rfl, ?_, rfl⟩
  cases hui : w.unlink_input_exc <;> cases huo : w.unlink_output_exc <;>
    simp [countPublishes, successTrace, preFetchTrace, cleanupTrace, hui, huo]

/-- C9 witness: the claim applied to the standard envelope and a world whose
transform returns normally with `success := false`. -/
theorem c9_success_flag_ignored_witness :
    (runResp evStd wResFalse).status = "success" ∧
    countPublishes (runTrace evStd wResFalse) = 1 ∧
    runResp evStd wResFalse =
      runResp evStd
        { wResFalse with
          transform_result := Except.ok { success := !(false : Bool), metadata := some [] } } :=
  c9_success_flag_ignored evStd wResFalse "j1" "in" "a.bin" "out"
    { success := false, metadata := some [] } rfl rfl rfl rfl rfl rfl rfl rfl

/-- C10: the transform's metadata mapping is merged last into the response
metadata, so for each of the Runner's five standard keys a value the transform
supplied overrides the Runner's computed one in the success response. -/
theorem c10_transform_metadata_overrides (event : Event) (w : World)
    (jid ib ik ob : String) (res : TransformResult) (k : String) (v : Value)
    (hinv : event.invocation_type = some "direct")
    (hj : event.job_id = some jid) (hib : event.input_bucket = some ib)
    (hik : event.input_key = some ik) (hob : event.output_bucket = some ob)
    (hf : w.fetch_exc = none) (ht : w.transform_result = .ok res)
    (hu : w.upload_exc = none)
    (hk : k = "processing_time_ms" ∨ k = "input_file_size_bytes" ∨
          k = "output_file_size_bytes" ∨ k = "customer_tier" ∨ k = "service_version")
    (hv : dget (res.metadata.getD []) k = some v) :
    ∃ md, (runResp event w).metadata = some md ∧ dget md k = some v := by
  have hrun := success_run event w jid ib ik ob res hinv hj hib hik hob hf ht hu
  rw [runResp_eq event w _ _ hrun]
  refine ⟨_, rfl, ?_⟩
  have hbase : dget ([("processing_time_ms", Value.nat w.elapsed_ms),
      ("input_file_size_bytes", Value.nat w.input_size),
      ("output_file_size_bytes", Value.nat w.output_size),
      ("customer_tier", Value.str (event.customer_tier.getD "standard")),
      ("service_version", Value.str w.service_version)]
      ++ res.metadata.getD []) k = some v := by
    rw [dget_append, hv]
  have hkr : k ≠ "reference_date" := by
    rcases hk with rfl | rfl | rfl | rfl | rfl <;> decide
  cases hrd : event.reference_date with
  | none =>
    simp only [successResponse, successMetadata, hrd]
    exact hbase
  | some rd =>
    by_cases hne : rd = ""
    · simp only [successResponse, successMetadata, hrd]
      rw [if_pos hne]
      exact hbase
    · simp only [successResponse, successMetadata, hrd]
      rw [if_neg hne, dget_append, hbase]
      simp [dget, Ne.symm hkr]

/-- C10 witness: the claim applied to a world whose transform metadata carries
`customer_tier = "gold"`, overriding the Runner's default "standard". -/
theorem c10_transform_metadata_overrides_witness :
    ∃ md, (runResp evStd wTierOverride).metadata = some md ∧
      dget md "customer_tier" = some (Value.str "gold") :=
  c10_transform_metadata_overrides evStd wTierOverride "j1" "in" "a.bin" "out"
    { success := true, metadata := some [("customer_tier", Value.str "gold")] }
    "customer_tier" (Value.str "gold") rfl rfl rfl rfl rfl rfl rfl rfl
    (Or.inr (Or.inr (Or.inr (Or.inl rfl)))) (by decide)
